import Mathlib

/-!
Shallow embedding of the `pygcf` (Global Container Format) codec.

The definitions below are translated from the repository sources:

* `src/gcf/header.py` — header codec and magic number;
* `src/gcf/resource.py` — common resource descriptor codec;
* `src/gcf/texture.py` — texture descriptor, mip level descriptor and
  mip level data codecs;
* `src/gcf/compression.py` — supercompression registry and dispatch;
* `src/gcf/file.py` — composite descriptor dispatch and padding;
* `src/gcf/image.py` — the class-based image API (flag decoding and
  descriptor construction);
* `src/gcf/__init__.py` — `_align_size`.

Bytes are modelled as natural numbers below 256 in `List Nat`; Python
exceptions are modelled as `none` in `Option`-returning functions.
`struct.pack`/`struct.unpack` with format characters `I`/`H`/`B` are
modelled by little-endian byte splitting/recombination; `struct.pack`
raises when a field does not fit its width, hence serializers return
`Option` and check the widths.  External compression backends (Python's
`zlib` module) are modelled as parameters; the identity scheme is the
repository's own code.
-/

namespace GCF

/-- Little-endian recombination of two bytes (`struct.unpack` of `H`). -/
def le16 (b0 b1 : Nat) : Nat := b0 + 256 * b1

/-- Little-endian recombination of four bytes (`struct.unpack` of `I`). -/
def le32 (b0 b1 b2 b3 : Nat) : Nat := b0 + 256 * b1 + 65536 * b2 + 16777216 * b3

/-- Little-endian byte splitting of a 16-bit value (`struct.pack` of `H`). -/
def bytesOfU16 (x : Nat) : List Nat := [x % 256, x / 256 % 256]

/-- Little-endian byte splitting of a 32-bit value (`struct.pack` of `I`). -/
def bytesOfU32 (x : Nat) : List Nat := [x % 256, x / 256 % 256, x / 65536 % 256, x / 16777216 % 256]

/-- Little-endian byte splitting of an 8-bit value (`struct.pack` of `B`). -/
def bytesOfU8 (x : Nat) : List Nat := [x % 256]

/-- `src/gcf/header.py`: `Header` typed dict.  `flags` holds the value of a
`ContainerFlags` member; `ContainerFlags` declares the single bit
`UNPADDED = 1`, so its valid values are `0` and `1`. -/
structure Header where
  magic : Nat
  resource_count : Nat
  flags : Nat
  deriving Repr, DecidableEq

/-- The value of `ContainerFlags.UNPADDED` (`auto()` on the first member). -/
def UNPADDED : Nat := 1

/-- `src/gcf/header.py`: `make_magic_number`.  Fails (`ValueError`) when
`version > 99`; otherwise packs the ASCII bytes `"GC"` followed by the
zero-padded two-digit decimal version and reads them back as a
little-endian u32 (`struct.unpack("<I", ...)`). -/
def make_magic_number (version : Nat) : Option Nat :=
  if version > 99 then none
  else some (le32 0x47 0x43 (0x30 + version / 10) (0x30 + version % 10))

/-- `src/gcf/header.py`: `serialize_header`, `struct.pack("=I2H", ...)`.
`struct.pack` raises unless each field fits its width. -/
def serialize_header (h : Header) : Option (List Nat) :=
  if h.magic < 4294967296 ∧ h.resource_count < 65536 ∧ h.flags < 65536 then
    some (bytesOfU32 h.magic ++ bytesOfU16 h.resource_count ++ bytesOfU16 h.flags)
  else none

/-- `src/gcf/header.py`: `deserialize_header`.  Raises unless the input is
exactly `HEADER_SIZE = 8` bytes; `ContainerFlags(fields[2])` raises for any
value that is not a combination of declared bits, i.e. for any flags value
other than `0` and `1`. -/
def deserialize_header (raw : List Nat) : Option Header :=
  match raw with
  | [b0, b1, b2, b3, b4, b5, b6, b7] =>
    if le16 b6 b7 ≤ 1 then
      some { magic := le32 b0 b1 b2 b3, resource_count := le16 b4 b5, flags := le16 b6 b7 }
    else none
  | _ => none

/-- Little-endian recombination of eight bytes (`struct.unpack` of `Q`). -/
def le64 (b0 b1 b2 b3 b4 b5 b6 b7 : Nat) : Nat :=
  le32 b0 b1 b2 b3 + 4294967296 * le32 b4 b5 b6 b7

/-- Little-endian byte splitting of a 64-bit value (`struct.pack` of `Q`). -/
def bytesOfU64 (x : Nat) : List Nat :=
  bytesOfU32 (x % 4294967296) ++ bytesOfU32 (x / 4294967296 % 4294967296)

/-- `src/gcf/resource.py`: `CommonResourceDescriptor` typed dict, format
`"=3I2H"` (16 bytes). -/
structure CommonResourceDescriptor where
  type : Nat
  format : Nat
  content_size : Nat
  extension_size : Nat
  supercompression_scheme : Nat
  deriving Repr, DecidableEq

/-- `src/gcf/resource.py`: `serialize_common_resource_descriptor`,
`struct.pack("=3I2H", ...)`. -/
def serialize_common_resource_descriptor (d : CommonResourceDescriptor) : Option (List Nat) :=
  if d.type < 4294967296 ∧ d.format < 4294967296 ∧ d.content_size < 4294967296 ∧
      d.extension_size < 65536 ∧ d.supercompression_scheme < 65536 then
    some (bytesOfU32 d.type ++ bytesOfU32 d.format ++ bytesOfU32 d.content_size ++
      bytesOfU16 d.extension_size ++ bytesOfU16 d.supercompression_scheme)
  else none

/-- The field decoding shared by `deserialize_common_resource_descriptor` and
`deserialize_texture_resource_descriptor` (which re-reads the same first 16
bytes when no common descriptor is supplied). -/
def commonFields (b0 b1 b2 b3 b4 b5 b6 b7 b8 b9 b10 b11 b12 b13 b14 b15 : Nat) :
    CommonResourceDescriptor where
  type := le32 b0 b1 b2 b3
  format := le32 b4 b5 b6 b7
  content_size := le32 b8 b9 b10 b11
  extension_size := le16 b12 b13
  supercompression_scheme := le16 b14 b15

/-- `src/gcf/resource.py`: `deserialize_common_resource_descriptor`.  Raises
when the input is shorter than `COMMON_DESCRIPTOR_SIZE = 16` bytes, then
unpacks `raw[:16]` (longer inputs are accepted and the tail ignored). -/
def deserialize_common_resource_descriptor (raw : List Nat) : Option CommonResourceDescriptor :=
  match raw with
  | b0 :: b1 :: b2 :: b3 :: b4 :: b5 :: b6 :: b7 ::
    b8 :: b9 :: b10 :: b11 :: b12 :: b13 :: b14 :: b15 :: _ =>
    some (commonFields b0 b1 b2 b3 b4 b5 b6 b7 b8 b9 b10 b11 b12 b13 b14 b15)
  | _ => none

/-- `src/gcf/texture.py`: values of the `TextureFlags` int-flag.  The bit
patterns overlap by design: `TEXTURE_2D` contains `TEXTURE_1D`'s bit and
`TEXTURE_3D` contains both. -/
def TEXTURE_1D : Nat := 0x0001

/-- `TextureFlags.TEXTURE_2D`. -/
def TEXTURE_2D : Nat := 0x0003

/-- `TextureFlags.TEXTURE_3D`. -/
def TEXTURE_3D : Nat := 0x0007

/-- `src/gcf/texture.py`: `TextureResourceDescriptor` typed dict, extending
the common descriptor with the extension of format `"=3H2BHIH"` (16 bytes).
`flags` holds the numeric value of a `TextureFlags` instance (an `IntFlag`,
which accepts any 16-bit value). -/
structure TextureResourceDescriptor extends CommonResourceDescriptor where
  base_width : Nat
  base_height : Nat
  base_depth : Nat
  layer_count : Nat
  mip_level_count : Nat
  flags : Nat
  texture_group : Nat
  deriving Repr, DecidableEq

/-- `src/gcf/texture.py`: `make_texture_resource_descriptor`.  A plain dict
construction: no validation of the flags and no adjustment of any field.
`EXTENDED_DESCRIPTOR_SIZE = 16`. -/
def make_texture_resource_descriptor (format_ content_size supercompression_scheme : Nat)
    (base_width : Nat) (base_height : Nat := 1) (base_depth : Nat := 1)
    (layer_count : Nat := 1) (mip_level_count : Nat := 1) (texture_group : Nat := 0)
    (flags : Nat := 0) : TextureResourceDescriptor where
  type := 1
  format := format_
  content_size := content_size
  extension_size := 16
  supercompression_scheme := supercompression_scheme
  base_width := base_width
  base_height := base_height
  base_depth := base_depth
  layer_count := layer_count
  mip_level_count := mip_level_count
  flags := flags
  texture_group := texture_group

/-- `src/gcf/texture.py`: `MipLevelDescriptor` typed dict, format `"=6I"`
(24 bytes, the sixth word reserved). -/
structure MipLevelDescriptor where
  compressed_size : Nat
  uncompressed_size : Nat
  row_stride : Nat
  slice_stride : Nat
  layer_stride : Nat
  deriving Repr, DecidableEq

/-- `src/gcf/texture.py`: `serialize_mip_level_descriptor`,
`struct.pack("=6I", ..., 0)`. -/
def serialize_mip_level_descriptor (d : MipLevelDescriptor) : Option (List Nat) :=
  if d.compressed_size < 4294967296 ∧ d.uncompressed_size < 4294967296 ∧
      d.row_stride < 4294967296 ∧ d.slice_stride < 4294967296 ∧
      d.layer_stride < 4294967296 then
    some (bytesOfU32 d.compressed_size ++ bytesOfU32 d.uncompressed_size ++
      bytesOfU32 d.row_stride ++ bytesOfU32 d.slice_stride ++
      bytesOfU32 d.layer_stride ++ bytesOfU32 0)
  else none

/-- `src/gcf/texture.py`: `deserialize_mip_level_descriptor`.  The source
first raises when the input is shorter than `MIP_LEVEL_SIZE = 24` bytes
(`ValueError`); it then calls `struct.unpack("=6I", raw)` on the WHOLE
buffer, which itself raises (`struct.error`) unless the buffer is exactly
24 bytes.  Both failure modes are `none` here. -/
def deserialize_mip_level_descriptor (raw : List Nat) : Option MipLevelDescriptor :=
  if raw.length < 24 then none
  else if raw.length ≠ 24 then none
  else match raw with
  | b0 :: b1 :: b2 :: b3 :: b4 :: b5 :: b6 :: b7 ::
    b8 :: b9 :: b10 :: b11 :: b12 :: b13 :: b14 :: b15 ::
    b16 :: b17 :: b18 :: b19 :: _ =>
    some { compressed_size := le32 b0 b1 b2 b3, uncompressed_size := le32 b4 b5 b6 b7,
           row_stride := le32 b8 b9 b10 b11, slice_stride := le32 b12 b13 b14 b15,
           layer_stride := le32 b16 b17 b18 b19 }
  | _ => none

/-- `src/gcf/texture.py`: `serialize_texture_resource_descriptor`: the
serialized common descriptor followed by
`struct.pack("=3H2BHIH", base_width, base_height, base_depth, layer_count,
mip_level_count, flags, texture_group, 0)`. -/
def serialize_texture_resource_descriptor (d : TextureResourceDescriptor) :
    Option (List Nat) :=
  (serialize_common_resource_descriptor d.toCommonResourceDescriptor).bind fun common_data =>
    if d.base_width < 65536 ∧ d.base_height < 65536 ∧ d.base_depth < 65536 ∧
        d.layer_count < 256 ∧ d.mip_level_count < 256 ∧ d.flags < 65536 ∧
        d.texture_group < 4294967296 then
      some (common_data ++ bytesOfU16 d.base_width ++ bytesOfU16 d.base_height ++
        bytesOfU16 d.base_depth ++ bytesOfU8 d.layer_count ++ bytesOfU8 d.mip_level_count ++
        bytesOfU16 d.flags ++ bytesOfU32 d.texture_group ++ bytesOfU16 0)
    else none

/-- `src/gcf/texture.py`: `deserialize_texture_resource_descriptor`.  Raises
when the input is shorter than `TOTAL_DESCRIPTOR_SIZE = 32` bytes; uses the
supplied common descriptor when one is given (`common_descriptor or ...`),
otherwise decodes it from the same buffer; then unpacks the extension from
`raw[16:32]`.  `TextureFlags(x)` keeps any extra bits (`IntFlag`), so the
flags word is passed through numerically. -/
def deserialize_texture_resource_descriptor (raw : List Nat)
    (common_descriptor : Option CommonResourceDescriptor := none) :
    Option TextureResourceDescriptor :=
  match raw with
  | b0 :: b1 :: b2 :: b3 :: b4 :: b5 :: b6 :: b7 ::
    b8 :: b9 :: b10 :: b11 :: b12 :: b13 :: b14 :: b15 ::
    b16 :: b17 :: b18 :: b19 :: b20 :: b21 :: b22 :: b23 ::
    b24 :: b25 :: b26 :: b27 :: b28 :: b29 :: _b30 :: _b31 :: _ =>
    let common := match common_descriptor with
      | some c => c
      | none => commonFields b0 b1 b2 b3 b4 b5 b6 b7 b8 b9 b10 b11 b12 b13 b14 b15
    some { toCommonResourceDescriptor := common,
           base_width := le16 b16 b17, base_height := le16 b18 b19,
           base_depth := le16 b20 b21, layer_count := b22, mip_level_count := b23,
           flags := le16 b24 b25, texture_group := le32 b26 b27 b28 b29 }
  | _ => none

/-- The external compression backends of `src/gcf/compression.py`
(`compress_zlib`/`decompress_zlib` and `compress_deflate`/
`decompress_deflate` wrap Python's `zlib` module, an external collaborator
per the spec).  A backend is a compression function plus a decompression
function that may fail on malformed input. -/
structure Codec where
  comp : List Nat → List Nat
  decomp : List Nat → Option (List Nat)

/-- `src/gcf/compression.py`: `compress_identity`/`decompress_identity`,
both returning the input unchanged. -/
def identityCodec : Codec where
  comp := fun data => data
  decomp := fun data => some data

/-- A backend decompresses what it compressed (the documented contract of
`zlib.compress`/`zlib.decompress`, which the repository relies on). -/
def Lossless (c : Codec) : Prop := ∀ data, c.decomp (c.comp data) = some data

/-- `src/gcf/compression.py`: `COMPRESSOR_TABLE`, keyed by
`SupercompressionScheme` values: `NO_COMPRESSION = 0` (identity),
`ZLIB = 1`, `DEFLATE = 2`, `TEST = 0xFFFF` (mapped to the deflate pair).
The external zlib-backed pairs are parameters. -/
def COMPRESSOR_TABLE (zlibCodec deflateCodec : Codec) (scheme : Nat) : Option Codec :=
  if scheme = 0 then some identityCodec
  else if scheme = 1 then some zlibCodec
  else if scheme = 2 then some deflateCodec
  else if scheme = 65535 then some deflateCodec
  else none

/-- `src/gcf/compression.py`: `compress`.  Raises (`ValueError`) for an
unregistered scheme. -/
def compress (zlibCodec deflateCodec : Codec) (data : List Nat) (scheme : Nat) :
    Option (List Nat) :=
  (COMPRESSOR_TABLE zlibCodec deflateCodec scheme).map fun c => c.comp data

/-- `src/gcf/compression.py`: `decompress`.  Raises (`ValueError`) for an
unregistered scheme. -/
def decompress (zlibCodec deflateCodec : Codec) (data : List Nat) (scheme : Nat) :
    Option (List Nat) :=
  (COMPRESSOR_TABLE zlibCodec deflateCodec scheme).bind fun c => c.decomp data

/-- `src/gcf/texture.py`: `deserialize_mip_level_data`.  Decompresses the
raw bytes with the descriptor's scheme, computes
`layer_size = total_decompressed_size // layer_count` (floor division —
`ZeroDivisionError` when `layer_count` is zero) and slices the decompressed
buffer into `layer_count` chunks `[layer_size * i : layer_size * (i + 1)]`. -/
def deserialize_mip_level_data (zlibCodec deflateCodec : Codec) (raw : List Nat)
    (descriptor : TextureResourceDescriptor) : Option (List (List Nat)) :=
  (decompress zlibCodec deflateCodec raw descriptor.supercompression_scheme).bind
    fun decompressed_level =>
      if descriptor.layer_count = 0 then none
      else
        let layer_size := decompressed_level.length / descriptor.layer_count
        some ((List.range descriptor.layer_count).map fun layer_index =>
          (decompressed_level.drop (layer_size * layer_index)).take layer_size)

/-- `src/gcf/texture.py`: `serialize_mip_level_data`: joins the layers and
compresses the concatenation as one unit. -/
def serialize_mip_level_data (zlibCodec deflateCodec : Codec) (layers : List (List Nat))
    (supercompression_scheme : Nat) : Option (List Nat) :=
  compress zlibCodec deflateCodec layers.flatten supercompression_scheme

/-- Modelled from the spec: the function-based `gcf.blob` module imported by
`src/gcf/file.py` (`BlobResourceDescriptor`, `deserialize_blob_descriptor`,
`serialize_blob_descriptor`) is not under `src/` (only the older class-based
`blob.py` is).  Per spec §3/§4.5 a blob descriptor extends the common one
with `uncompressed_size: u64` plus 8 reserved bytes. -/
structure BlobResourceDescriptor extends CommonResourceDescriptor where
  uncompressed_size : Nat
  deriving Repr, DecidableEq

/-- Modelled from the spec: `serialize_blob_descriptor` — the serialized
common descriptor followed by the 16-byte extension
`{uncompressed_size: u64, reserved: u64}`. -/
def serialize_blob_descriptor (d : BlobResourceDescriptor) : Option (List Nat) :=
  (serialize_common_resource_descriptor d.toCommonResourceDescriptor).bind fun common_data =>
    if d.uncompressed_size < 18446744073709551616 then
      some (common_data ++ bytesOfU64 d.uncompressed_size ++ bytesOfU64 0)
    else none

/-- Modelled from the spec: `deserialize_blob_descriptor(raw, common)` —
receives the common-plus-extension bytes and the decoded common descriptor;
fails unless the extension is exactly 16 bytes (`len(raw_extension) !=
expected_extension_size`), and reads `uncompressed_size` from its first
8 bytes. -/
def deserialize_blob_descriptor (raw : List Nat) (common : CommonResourceDescriptor) :
    Option BlobResourceDescriptor :=
  match raw.drop 16 with
  | [e0, e1, e2, e3, e4, e5, e6, e7, _, _, _, _, _, _, _, _] =>
    some { toCommonResourceDescriptor := common,
           uncompressed_size := le64 e0 e1 e2 e3 e4 e5 e6 e7 }
  | _ => none

/-- `src/gcf/file.py`: `CompositeResourceDescriptor =
Union[BlobResourceDescriptor, TextureResourceDescriptor, bytes]`. -/
inductive CompositeResourceDescriptor where
  | blob (d : BlobResourceDescriptor)
  | texture (d : TextureResourceDescriptor)
  | raw (bs : List Nat)
  deriving Repr, DecidableEq

/-- `src/gcf/file.py`: `read_composite_descriptor`, reading from the stream
position (modelled by the remaining byte list): reads 16 bytes, decodes the
common descriptor, reads `extension_size` further bytes, and dispatches on
the type code over `{BLOB = 0, TEXTURE = 1}`; any other type code uses
`nop_deserializer`, which returns the common-plus-extension bytes
unchanged. -/
def read_composite_descriptor (data : List Nat) : Option CompositeResourceDescriptor :=
  let raw_common_descriptor := data.take 16
  (deserialize_common_resource_descriptor raw_common_descriptor).bind fun common_descriptor =>
    let raw_extended_descriptor := (data.drop 16).take common_descriptor.extension_size
    let full_descriptor := raw_common_descriptor ++ raw_extended_descriptor
    if common_descriptor.type = 0 then
      (deserialize_blob_descriptor full_descriptor common_descriptor).map .blob
    else if common_descriptor.type = 1 then
      (deserialize_texture_resource_descriptor full_descriptor (some common_descriptor)).map .texture
    else some (.raw full_descriptor)

/-- `src/gcf/file.py`: `write_composite_resource_descriptor`.  A bytes value
is written unchanged; a typed descriptor selects its serializer from
`serializer_map` by its `type` field — a lookup that raises (`ValueError`)
for an unregistered type, and a mismatched serializer raises (`KeyError`)
on the missing dict keys; both failure modes are `none`. -/
def write_composite_resource_descriptor :
    CompositeResourceDescriptor → Option (List Nat)
  | .raw bs => some bs
  | .blob d => if d.type = 0 then serialize_blob_descriptor d else none
  | .texture d => if d.type = 1 then serialize_texture_resource_descriptor d else none

/-- `src/gcf/__init__.py`: `_align_size` (imported by `src/gcf/file.py` as
`align_size` from `gcf.util`): asserts that the alignment is a power of two
and returns `(orig_size + mask) & ~mask` with `mask = alignment - 1`; for a
natural number, `x & ~mask` is `Nat.ldiff x mask`.  The failed assertion is
`none`. -/
def align_size (orig_size alignment : Nat) : Option Nat :=
  if alignment &&& (alignment - 1) ≠ 0 then none
  else some (Nat.ldiff (orig_size + (alignment - 1)) (alignment - 1))

/-- `src/gcf/file.py`: `skip_padding`: when the header's `UNPADDED` flag is
unset, seeks to `align_size(tell(), 8)`; otherwise leaves the position
unchanged.  Returns the new stream position. -/
def skip_padding (flags position : Nat) : Option Nat :=
  if flags &&& UNPADDED = 0 then align_size position 8
  else some position

/-- `src/gcf/file.py`: `write_padding`: when the header's `UNPADDED` flag is
set, returns immediately having written nothing; otherwise writes
`align_size(tell(), 8) - tell()` zero bytes.  Returns the bytes written. -/
def write_padding (flags position : Nat) : Option (List Nat) :=
  if flags &&& UNPADDED ≠ 0 then some []
  else (align_size position 8).map fun aligned => List.replicate (aligned - position) 0

/-- `src/gcf/image.py`: the three `ImageFlags` members. -/
inductive ImageFlags where
  | image1D
  | image2D
  | image3D
  deriving Repr, DecidableEq

/-- The numeric values of the `ImageFlags` members: `IMAGE_1D = 0x0001`,
`IMAGE_2D = 0x0003`, `IMAGE_3D = 0x0007` (overlapping bit patterns). -/
def ImageFlags.value : ImageFlags → Nat
  | .image1D => 1
  | .image2D => 3
  | .image3D => 7

/-- `src/gcf/image.py`: `ImageResourceDescriptor._decode_flags`: scans the
members in the order `IMAGE_3D, IMAGE_2D, IMAGE_1D`, adds the first member
whose full bit pattern is contained in the raw flags word, and stops
(`break`). -/
def decode_flags (raw_flags : Nat) : List ImageFlags :=
  if raw_flags &&& ImageFlags.image3D.value = ImageFlags.image3D.value then [.image3D]
  else if raw_flags &&& ImageFlags.image2D.value = ImageFlags.image2D.value then [.image2D]
  else if raw_flags &&& ImageFlags.image1D.value = ImageFlags.image1D.value then [.image1D]
  else []

/-- For comparison with the claim's words only: the low-to-high check order
(`IMAGE_1D, IMAGE_2D, IMAGE_3D`, first match wins) that the claim says is
NOT used. -/
def decode_flags_low_to_high (raw_flags : Nat) : List ImageFlags :=
  if raw_flags &&& ImageFlags.image1D.value = ImageFlags.image1D.value then [.image1D]
  else if raw_flags &&& ImageFlags.image2D.value = ImageFlags.image2D.value then [.image2D]
  else if raw_flags &&& ImageFlags.image3D.value = ImageFlags.image3D.value then [.image3D]
  else []

/-- `src/gcf/image.py`: the fields of an `ImageResourceDescriptor` relevant
to its constructor (the base-class fields `format`, `size` and
`supercompression_scheme` are passed through unchanged by
`super().__init__`). -/
structure ImageResourceDescriptor where
  format : Nat
  size : Nat
  supercompression_scheme : Nat
  width : Nat
  height : Nat
  depth : Nat
  layer_count : Nat
  mip_level_count : Nat
  flags : List ImageFlags
  deriving Repr, DecidableEq

/-- `src/gcf/image.py`: `ImageResourceDescriptor.__init__`: turns the flags
iterable into a set (modelled by `List.dedup`), raises (`ValueError`) unless
exactly one of the three dimensionality members is present, and stores
`height` collapsed to 1 when `IMAGE_1D` is among the flags and `depth`
collapsed to 1 unless `IMAGE_3D` is among the flags. -/
def imageResourceDescriptorInit (format size supercompression_scheme width : Nat)
    (height : Nat := 1) (depth : Nat := 1) (layer_count : Nat := 1)
    (mip_level_count : Nat := 1) (flags : List ImageFlags := [.image2D]) :
    Option ImageResourceDescriptor :=
  let fset := flags.dedup
  if ([ImageFlags.image1D, ImageFlags.image2D, ImageFlags.image3D].filter
      (fun f => decide (f ∈ fset))).length ≠ 1 then none
  else some {
    format := format, size := size, supercompression_scheme := supercompression_scheme,
    width := width,
    height := if ImageFlags.image1D ∈ fset then 1 else height,
    depth := if ImageFlags.image3D ∈ fset then depth else 1,
    layer_count := layer_count, mip_level_count := mip_level_count, flags := fset }

end GCF

namespace GCF

/-- Helper: recombining the little-endian split of a 16-bit value. -/
theorem le16_split (x : Nat) (h : x < 65536) : le16 (x % 256) (x / 256 % 256) = x := by
  unfold le16
  omega

/-- Helper: recombining the little-endian split of a 32-bit value. -/
theorem le32_split (x : Nat) (h : x < 4294967296) :
    le32 (x % 256) (x / 256 % 256) (x / 65536 % 256) (x / 16777216 % 256) = x := by
  unfold le32
  omega

/-- Helper: clearing the low three bits rounds down to a multiple of 8. -/
theorem ldiff_seven (n : Nat) : Nat.ldiff n 7 = 8 * (n / 8) := by
  apply Nat.eq_of_testBit_eq
  intro i
  rw [Nat.testBit_ldiff]
  have h8 : (8 : Nat) * (n / 8) = (n >>> 3) <<< 3 := by
    rw [Nat.shiftRight_eq_div_pow, Nat.shiftLeft_eq]
    ring_nf
  rw [h8, Nat.testBit_shiftLeft, Nat.testBit_shiftRight]
  rcases Nat.lt_or_ge i 3 with h | h
  · have h7 : Nat.testBit 7 i = true := by interval_cases i <;> decide
    simp [h7, Nat.not_le.mpr h]
  · have h7 : Nat.testBit 7 i = false := Nat.testBit_eq_false_of_lt (by
      calc (7 : Nat) < 2 ^ 3 := by norm_num
      _ ≤ 2 ^ i := Nat.pow_le_pow_right (by norm_num) h)
    have h3 : 3 + (i - 3) = i := by omega
    simp [h7, h, h3]

/-- Helper: masking with a low-bit mask is reduction modulo a power of two. -/
theorem and_seven (n : Nat) : n &&& 7 = n % 8 := by
  have h := Nat.and_pow_two_sub_one_eq_mod n 3
  simpa using h

/-- Helper: masking with the two low bits. -/
theorem and_three (n : Nat) : n &&& 3 = n % 4 := by
  have h := Nat.and_pow_two_sub_one_eq_mod n 2
  simpa using h

/-- Helper: masking with the lowest bit. -/
theorem and_one (n : Nat) : n &&& 1 = n % 2 := Nat.and_one_is_mod n

/-- Helper: `deserialize_header` inverts `serialize_header` on headers whose
fields fit their widths and whose flags value is a valid `ContainerFlags`. -/
theorem header_roundtrip (h : Header) (hm : h.magic < 4294967296)
    (hr : h.resource_count < 65536) (hf : h.flags ≤ 1) :
    (serialize_header h).bind deserialize_header = some h := by
  obtain ⟨m, rc, fl⟩ := h
  simp only at hm hr hf
  have hf16 : fl < 65536 := by omega
  simp only [serialize_header, if_pos (⟨hm, hr, hf16⟩ : _ ∧ _ ∧ _), Option.some_bind,
    bytesOfU32, bytesOfU16, List.cons_append, List.nil_append, deserialize_header]
  rw [if_pos (by unfold le16; omega)]
  simp only [Option.some.injEq, Header.mk.injEq]
  refine ⟨?_, ?_, ?_⟩ <;> simp only [le16, le32] <;> omega

/-- Helper: the common resource descriptor round-trips. -/
theorem common_roundtrip (d : CommonResourceDescriptor) (h1 : d.type < 4294967296)
    (h2 : d.format < 4294967296) (h3 : d.content_size < 4294967296)
    (h4 : d.extension_size < 65536) (h5 : d.supercompression_scheme < 65536) :
    (serialize_common_resource_descriptor d).bind deserialize_common_resource_descriptor =
      some d := by
  obtain ⟨t, f, c, e, s⟩ := d
  simp only at h1 h2 h3 h4 h5
  simp only [serialize_common_resource_descriptor,
    if_pos (⟨h1, h2, h3, h4, h5⟩ : _ ∧ _ ∧ _ ∧ _ ∧ _), Option.some_bind, bytesOfU32,
    bytesOfU16, List.cons_append, List.nil_append, deserialize_common_resource_descriptor,
    commonFields, Option.some.injEq, CommonResourceDescriptor.mk.injEq]
  refine ⟨?_, ?_, ?_, ?_, ?_⟩ <;> simp only [le16, le32] <;> omega

/-- Helper: the texture resource descriptor round-trips. -/
theorem texture_roundtrip (d : TextureResourceDescriptor)
    (h1 : d.type < 4294967296) (h2 : d.format < 4294967296)
    (h3 : d.content_size < 4294967296) (h4 : d.extension_size < 65536)
    (h5 : d.supercompression_scheme < 65536) (h6 : d.base_width < 65536)
    (h7 : d.base_height < 65536) (h8 : d.base_depth < 65536) (h9 : d.layer_count < 256)
    (h10 : d.mip_level_count < 256) (h11 : d.flags < 65536)
    (h12 : d.texture_group < 4294967296) :
    (serialize_texture_resource_descriptor d).bind
      (fun raw => deserialize_texture_resource_descriptor raw none) = some d := by
  obtain ⟨⟨t, f, c, e, s⟩, bw, bh, bd, lc, mlc, fl, tg⟩ := d
  replace h1 : t < 4294967296 := h1
  replace h2 : f < 4294967296 := h2
  replace h3 : c < 4294967296 := h3
  replace h4 : e < 65536 := h4
  replace h5 : s < 65536 := h5
  replace h6 : bw < 65536 := h6
  replace h7 : bh < 65536 := h7
  replace h8 : bd < 65536 := h8
  replace h9 : lc < 256 := h9
  replace h10 : mlc < 256 := h10
  replace h11 : fl < 65536 := h11
  replace h12 : tg < 4294967296 := h12
  simp only [serialize_texture_resource_descriptor, serialize_common_resource_descriptor,
    if_pos (⟨h1, h2, h3, h4, h5⟩ : _ ∧ _ ∧ _ ∧ _ ∧ _), Option.some_bind,
    if_pos (⟨h6, h7, h8, h9, h10, h11, h12⟩ : _ ∧ _ ∧ _ ∧ _ ∧ _ ∧ _ ∧ _),
    bytesOfU32, bytesOfU16, bytesOfU8, List.cons_append, List.nil_append,
    deserialize_texture_resource_descriptor, commonFields, Option.some.injEq,
    TextureResourceDescriptor.mk.injEq, CommonResourceDescriptor.mk.injEq]
  refine ⟨⟨?_, ?_, ?_, ?_, ?_⟩, ?_, ?_, ?_, ?_, ?_, ?_, ?_⟩ <;>
    (try simp only [le16, le32]) <;> omega

/-- Helper: the mip level descriptor round-trips. -/
theorem mip_roundtrip (d : MipLevelDescriptor) (h1 : d.compressed_size < 4294967296)
    (h2 : d.uncompressed_size < 4294967296) (h3 : d.row_stride < 4294967296)
    (h4 : d.slice_stride < 4294967296) (h5 : d.layer_stride < 4294967296) :
    (serialize_mip_level_descriptor d).bind deserialize_mip_level_descriptor = some d := by
  obtain ⟨cs, us, rs, ss, ls⟩ := d
  replace h1 : cs < 4294967296 := h1
  replace h2 : us < 4294967296 := h2
  replace h3 : rs < 4294967296 := h3
  replace h4 : ss < 4294967296 := h4
  replace h5 : ls < 4294967296 := h5
  simp only [serialize_mip_level_descriptor,
    if_pos (⟨h1, h2, h3, h4, h5⟩ : _ ∧ _ ∧ _ ∧ _ ∧ _), Option.some_bind, bytesOfU32,
    List.cons_append, List.nil_append, deserialize_mip_level_descriptor,
    List.length_cons, List.length_nil]
  norm_num [le32]
  omega

end GCF

namespace GCF

/-- C9: `make_magic_number(v)` fails for every version above 99; for
`0 ≤ v ≤ 99` it returns the little-endian u32 of the four ASCII bytes
`"GC"` followed by the zero-padded two-digit decimal version; version 3
gives the u32 with byte sequence `47 43 30 33`. -/
theorem make_magic_number_spec (v : Nat) :
    (99 < v → make_magic_number v = none) ∧
    (v ≤ 99 → make_magic_number v =
      some (0x47 + 0x43 * 256 + (0x30 + v / 10) * 65536 + (0x30 + v % 10) * 16777216)) ∧
    make_magic_number 3 = some 858800967 := by
  refine ⟨fun hv => ?_, fun hv => ?_, by decide⟩
  · simp only [make_magic_number, if_pos hv]
  · simp only [make_magic_number, if_neg (by omega : ¬ v > 99), le32, Option.some.injEq]
    ring

/-- Witness for `make_magic_number_spec` at version 3 and version 100. -/
theorem make_magic_number_spec_witness :
    make_magic_number 3 = some 858800967 ∧ make_magic_number 100 = none := by
  exact ⟨((make_magic_number_spec 3).2.1 (by decide)).trans (by decide),
    (make_magic_number_spec 100).1 (by decide)⟩

/-- C10: an 8-byte header whose 16-bit flags field (bytes 6 and 7,
little-endian) has any bit other than bit 0 set is rejected by
`deserialize_header`; flags values 0 and 1 are accepted. -/
theorem deserialize_header_rejects_unknown_flags (b0 b1 b2 b3 b4 b5 b6 b7 : Nat) :
    (2 ≤ le16 b6 b7 → deserialize_header [b0, b1, b2, b3, b4, b5, b6, b7] = none) ∧
    (le16 b6 b7 ≤ 1 →
      deserialize_header [b0, b1, b2, b3, b4, b5, b6, b7] =
        some { magic := le32 b0 b1 b2 b3, resource_count := le16 b4 b5,
               flags := le16 b6 b7 }) := by
  constructor
  · intro hfl
    simp only [deserialize_header]
    rw [if_neg (by omega)]
  · intro hfl
    simp only [deserialize_header]
    rw [if_pos hfl]

/-- Witness for `deserialize_header_rejects_unknown_flags`: flags word 2
(unknown bit 1) is rejected; flags word 1 is accepted. -/
theorem deserialize_header_rejects_unknown_flags_witness :
    deserialize_header [71, 67, 48, 51, 5, 0, 2, 0] = none ∧
    deserialize_header [71, 67, 48, 51, 5, 0, 1, 0] =
      some { magic := 858800967, resource_count := 5, flags := 1 } := by
  constructor
  · exact (deserialize_header_rejects_unknown_flags 71 67 48 51 5 0 2 0).1 (by decide)
  · exact ((deserialize_header_rejects_unknown_flags 71 67 48 51 5 0 1 0).2
      (by decide)).trans (by decide)

/-- C1: round-trip laws — deserializing the serialization returns the
original value for headers, common resource descriptors, texture resource
descriptors and mip level descriptors whose fields fit their declared
bit-widths. -/
theorem roundtrip_serialization :
    (∀ h : Header, h.magic < 4294967296 → h.resource_count < 65536 → h.flags ≤ 1 →
      (serialize_header h).bind deserialize_header = some h) ∧
    (∀ d : CommonResourceDescriptor, d.type < 4294967296 → d.format < 4294967296 →
      d.content_size < 4294967296 → d.extension_size < 65536 →
      d.supercompression_scheme < 65536 →
      (serialize_common_resource_descriptor d).bind
        deserialize_common_resource_descriptor = some d) ∧
    (∀ d : TextureResourceDescriptor, d.type < 4294967296 → d.format < 4294967296 →
      d.content_size < 4294967296 → d.extension_size < 65536 →
      d.supercompression_scheme < 65536 → d.base_width < 65536 → d.base_height < 65536 →
      d.base_depth < 65536 → d.layer_count < 256 → d.mip_level_count < 256 →
      d.flags < 65536 → d.texture_group < 4294967296 →
      (serialize_texture_resource_descriptor d).bind
        (fun raw => deserialize_texture_resource_descriptor raw none) = some d) ∧
    (∀ d : MipLevelDescriptor, d.compressed_size < 4294967296 →
      d.uncompressed_size < 4294967296 → d.row_stride < 4294967296 →
      d.slice_stride < 4294967296 → d.layer_stride < 4294967296 →
      (serialize_mip_level_descriptor d).bind deserialize_mip_level_descriptor = some d) :=
  ⟨header_roundtrip, common_roundtrip, texture_roundtrip, mip_roundtrip⟩

/-- Witness for `roundtrip_serialization` on concrete values of all four
record kinds. -/
theorem roundtrip_serialization_witness :
    (serialize_header { magic := 858800967, resource_count := 2, flags := 1 }).bind
      deserialize_header = some { magic := 858800967, resource_count := 2, flags := 1 } ∧
    (serialize_common_resource_descriptor
        { type := 7, format := 90, content_size := 123, extension_size := 3,
          supercompression_scheme := 2 }).bind deserialize_common_resource_descriptor =
      some { type := 7, format := 90, content_size := 123, extension_size := 3,
             supercompression_scheme := 2 } ∧
    (serialize_texture_resource_descriptor
        { type := 1, format := 90, content_size := 123, extension_size := 16,
          supercompression_scheme := 2, base_width := 100, base_height := 100,
          base_depth := 1, layer_count := 5, mip_level_count := 2, flags := 3,
          texture_group := 99 }).bind
      (fun raw => deserialize_texture_resource_descriptor raw none) =
      some { type := 1, format := 90, content_size := 123, extension_size := 16,
             supercompression_scheme := 2, base_width := 100, base_height := 100,
             base_depth := 1, layer_count := 5, mip_level_count := 2, flags := 3,
             texture_group := 99 } ∧
    (serialize_mip_level_descriptor
        { compressed_size := 123, uncompressed_size := 345, row_stride := 6,
          slice_stride := 7, layer_stride := 5 }).bind deserialize_mip_level_descriptor =
      some { compressed_size := 123, uncompressed_size := 345, row_stride := 6,
             slice_stride := 7, layer_stride := 5 } := by
  refine ⟨roundtrip_serialization.1 _ (by decide) (by decide) (by decide),
    roundtrip_serialization.2.1 _ (by decide) (by decide) (by decide) (by decide) (by decide),
    roundtrip_serialization.2.2.1 _ (by decide) (by decide) (by decide) (by decide)
      (by decide) (by decide) (by decide) (by decide) (by decide) (by decide) (by decide)
      (by decide),
    roundtrip_serialization.2.2.2 _ (by decide) (by decide) (by decide) (by decide)
      (by decide)⟩

end GCF

namespace GCF

/-- Helper: the identity backend of `NO_COMPRESSION` is lossless. -/
theorem lossless_identityCodec : Lossless identityCodec := fun _ => rfl

/-- C4: for every registered supercompression scheme (`NO_COMPRESSION = 0`,
`ZLIB = 1`, `DEFLATE = 2`, `TEST = 0xFFFF`) and every byte sequence,
decompressing the compression returns the original data, given that the
external zlib-backed codec pairs are lossless (the `zlib` module's
documented contract). -/
theorem compression_roundtrip (zlibCodec deflateCodec : Codec)
    (hz : Lossless zlibCodec) (hd : Lossless deflateCodec) (scheme : Nat)
    (hs : scheme = 0 ∨ scheme = 1 ∨ scheme = 2 ∨ scheme = 65535) (data : List Nat) :
    (compress zlibCodec deflateCodec data scheme).bind
      (fun compressed => decompress zlibCodec deflateCodec compressed scheme) =
      some data := by
  rcases hs with rfl | rfl | rfl | rfl <;>
    simp [compress, decompress, COMPRESSOR_TABLE, identityCodec, hz data, hd data]

/-- Witness for `compression_roundtrip`: the deflate-backed `TEST` scheme
instantiated with a lossless backend and the identity scheme, on a concrete
buffer and on the empty buffer. -/
theorem compression_roundtrip_witness :
    (compress identityCodec identityCodec [10, 20, 30] 65535).bind
      (fun compressed => decompress identityCodec identityCodec compressed 65535) =
      some [10, 20, 30] ∧
    (compress identityCodec identityCodec [] 0).bind
      (fun compressed => decompress identityCodec identityCodec compressed 0) =
      some [] :=
  ⟨compression_roundtrip identityCodec identityCodec lossless_identityCodec
      lossless_identityCodec 65535 (Or.inr (Or.inr (Or.inr rfl))) [10, 20, 30],
    compression_roundtrip identityCodec identityCodec lossless_identityCodec
      lossless_identityCodec 0 (Or.inl rfl) []⟩

/-- Helper: consecutive equal-size slices of a list concatenate to a
prefix of the list. -/
theorem flatten_chunks (l : List Nat) (s : Nat) (k : Nat) :
    ((List.range k).map fun i => (l.drop (s * i)).take s).flatten = l.take (s * k) := by
  induction k with
  | zero => simp
  | succ n ih =>
    rw [List.range_succ, List.map_append, List.flatten_append, ih]
    simp [Nat.mul_succ, List.take_add]

/-- C3 (amended): `deserialize_mip_level_data` never fails on a
divisibility mismatch — whenever decompression succeeds and the layer
count is nonzero, it returns `layer_count` chunks of exactly
`⌊decompressed_length / layer_count⌋` bytes each, silently discarding the
remainder bytes. -/
theorem mip_level_data_floor_split (zlibCodec deflateCodec : Codec) (raw : List Nat)
    (descriptor : TextureResourceDescriptor) (decompressed : List Nat)
    (hdec : decompress zlibCodec deflateCodec raw descriptor.supercompression_scheme =
      some decompressed)
    (hlc : descriptor.layer_count ≠ 0) :
    ∃ layers,
      deserialize_mip_level_data zlibCodec deflateCodec raw descriptor = some layers ∧
      layers.length = descriptor.layer_count ∧
      (∀ layer ∈ layers,
        layer.length = decompressed.length / descriptor.layer_count) ∧
      layers.flatten = decompressed.take
        (decompressed.length / descriptor.layer_count * descriptor.layer_count) := by
  refine ⟨(List.range descriptor.layer_count).map fun i =>
    (decompressed.drop (decompressed.length / descriptor.layer_count * i)).take
      (decompressed.length / descriptor.layer_count), ?_, ?_, ?_, ?_⟩
  · simp only [deserialize_mip_level_data, hdec, Option.some_bind, if_neg hlc]
  · simp only [List.length_map, List.length_range]
  · intro layer hmem
    rw [List.mem_map] at hmem
    obtain ⟨i, hi, rfl⟩ := hmem
    rw [List.mem_range] at hi
    rw [List.length_take, List.length_drop]
    have hle : decompressed.length / descriptor.layer_count * descriptor.layer_count ≤
        decompressed.length := Nat.div_mul_le_self _ _
    have hmono : decompressed.length / descriptor.layer_count * (i + 1) ≤
        decompressed.length / descriptor.layer_count * descriptor.layer_count :=
      Nat.mul_le_mul_left _ (by omega)
    have hexp : decompressed.length / descriptor.layer_count * (i + 1) =
        decompressed.length / descriptor.layer_count * i +
          decompressed.length / descriptor.layer_count := by ring
    omega
  · exact flatten_chunks decompressed (decompressed.length / descriptor.layer_count)
      descriptor.layer_count

/-- Witness for `mip_level_data_floor_split`: an 8-byte uncompressed level
split into two 4-byte layers. -/
theorem mip_level_data_floor_split_witness :
    ∃ layers,
      deserialize_mip_level_data identityCodec identityCodec [1, 2, 3, 4, 5, 6, 7, 8]
        (make_texture_resource_descriptor 0 8 0 4 1 1 2 1 0 1) = some layers ∧
      layers.length = (make_texture_resource_descriptor 0 8 0 4 1 1 2 1 0 1).layer_count ∧
      (∀ layer ∈ layers, layer.length = (8 : Nat) / 2) ∧
      layers.flatten = [1, 2, 3, 4, 5, 6, 7, 8] :=
  let h := mip_level_data_floor_split identityCodec identityCodec [1, 2, 3, 4, 5, 6, 7, 8]
    (make_texture_resource_descriptor 0 8 0 4 1 1 2 1 0 1) [1, 2, 3, 4, 5, 6, 7, 8]
    (by decide) (by decide)
  by
    obtain ⟨layers, h1, h2, h3, h4⟩ := h
    exact ⟨layers, h1, h2, by simpa using h3, by simpa using h4⟩

/-- C3 counterexample: a 5-byte uncompressed level with `layer_count = 2`
is NOT rejected — `deserialize_mip_level_data` succeeds, returning two
2-byte layers and silently discarding the fifth byte, although 5 is not
divisible by 2. -/
theorem mip_level_data_silent_truncation_cex :
    deserialize_mip_level_data identityCodec identityCodec [1, 2, 3, 4, 5]
      (make_texture_resource_descriptor 0 5 0 4 1 1 2 1 0 1) = some [[1, 2], [3, 4]] := by
  decide

end GCF

namespace GCF

/-- Helper: aligning to 8 advances to the next multiple of 8. -/
theorem align_size_eight (n : Nat) : align_size n 8 = some (n + (8 - n % 8) % 8) := by
  have hpow : (8 : Nat) &&& 7 = 0 := by decide
  simp only [align_size, hpow, ne_eq, not_true_eq_false, if_false]
  rw [show (8 : Nat) - 1 = 7 from rfl, ldiff_seven]
  exact congrArg some (by omega)

/-- C5: when the header's `UNPADDED` flag is unset, `write_padding` writes
exactly the zero bytes needed to reach the next multiple of 8 (none when
already aligned) and `skip_padding` advances the position to that same
boundary; when `UNPADDED` is set, neither writes nor skips anything. -/
theorem padding_discipline (flags position : Nat) :
    (flags &&& UNPADDED = 0 →
      write_padding flags position = some (List.replicate ((8 - position % 8) % 8) 0) ∧
      skip_padding flags position = some (position + (8 - position % 8) % 8) ∧
      (position + (8 - position % 8) % 8) % 8 = 0 ∧
      (position % 8 = 0 → write_padding flags position = some [])) ∧
    (flags &&& UNPADDED ≠ 0 →
      write_padding flags position = some [] ∧
      skip_padding flags position = some position) := by
  constructor
  · intro hun
    have hw : write_padding flags position =
        some (List.replicate ((8 - position % 8) % 8) 0) := by
      simp only [write_padding, hun, ne_eq, not_true_eq_false, if_false,
        align_size_eight, Option.map_some]
      refine congrArg some ?_
      show List.replicate (position + (8 - position % 8) % 8 - position) 0 =
        List.replicate ((8 - position % 8) % 8) 0
      congr 1
      omega
    refine ⟨hw, ?_, by omega, fun hal => ?_⟩
    · simp only [skip_padding, hun, if_true, align_size_eight]
    · rw [hw]
      have : (8 - position % 8) % 8 = 0 := by omega
      rw [this, List.replicate_zero]
  · intro hun
    constructor
    · simp only [write_padding, if_pos hun]
    · simp only [skip_padding, if_neg hun]

/-- Witness for `padding_discipline`: position 5 is padded with three zero
bytes up to offset 8 when padding is enabled, and untouched when the
`UNPADDED` flag (value 1) is set. -/
theorem padding_discipline_witness :
    write_padding 0 5 = some [0, 0, 0] ∧ skip_padding 0 5 = some 8 ∧
    write_padding 0 8 = some [] ∧
    write_padding 1 5 = some [] ∧ skip_padding 1 5 = some 5 := by
  refine ⟨((padding_discipline 0 5).1 (by decide)).1.trans (by decide),
    ((padding_discipline 0 5).1 (by decide)).2.1.trans (by decide),
    ((padding_discipline 0 8).1 (by decide)).2.2.2 (by decide),
    ((padding_discipline 1 5).2 (by decide)).1,
    ((padding_discipline 1 5).2 (by decide)).2⟩

/-- C6: `_decode_flags` scans the overlapping dimensionality patterns in
the order 3D (`0b111`), 2D (`0b011`), 1D (`0b001`), first full match wins:
a word with all three low bits decodes as 3D; otherwise one containing
`0b011` decodes as 2D; otherwise one containing `0b001` decodes as 1D.
The low-to-high order is not used: on `0b111` it would answer 1D. -/
theorem decode_flags_order (raw_flags : Nat) :
    (raw_flags % 2 = 1 → raw_flags / 2 % 2 = 1 → raw_flags / 4 % 2 = 1 →
      decode_flags raw_flags = [ImageFlags.image3D]) ∧
    (¬(raw_flags % 2 = 1 ∧ raw_flags / 2 % 2 = 1 ∧ raw_flags / 4 % 2 = 1) →
      raw_flags % 2 = 1 → raw_flags / 2 % 2 = 1 →
      decode_flags raw_flags = [ImageFlags.image2D]) ∧
    (¬(raw_flags % 2 = 1 ∧ raw_flags / 2 % 2 = 1) → raw_flags % 2 = 1 →
      decode_flags raw_flags = [ImageFlags.image1D]) ∧
    decode_flags 7 = [ImageFlags.image3D] ∧
    decode_flags_low_to_high 7 = [ImageFlags.image1D] := by
  refine ⟨?_, ?_, ?_, by decide, by decide⟩
  · intro h0 h1 h2
    simp only [decode_flags, ImageFlags.value, and_seven]
    rw [if_pos (by omega)]
  · intro hne h0 h1
    have h2 : raw_flags / 4 % 2 = 0 := by
      by_cases hc : raw_flags / 4 % 2 = 1
      · exact absurd ⟨h0, h1, hc⟩ hne
      · omega
    simp only [decode_flags, ImageFlags.value, and_seven, and_three]
    rw [if_neg (by omega), if_pos (by omega)]
  · intro hne h0
    have h1 : raw_flags / 2 % 2 = 0 := by
      by_cases hc : raw_flags / 2 % 2 = 1
      · exact absurd ⟨h0, hc⟩ hne
      · omega
    simp only [decode_flags, ImageFlags.value, and_seven, and_three, and_one]
    rw [if_neg (by omega), if_neg (by omega), if_pos h0]

/-- Witness for `decode_flags_order` at the raw words 7, 3 and 1. -/
theorem decode_flags_order_witness :
    decode_flags 7 = [ImageFlags.image3D] ∧ decode_flags 3 = [ImageFlags.image2D] ∧
    decode_flags 1 = [ImageFlags.image1D] :=
  ⟨(decode_flags_order 7).1 (by decide) (by decide) (by decide),
    (decode_flags_order 3).2.1 (by decide) (by decide) (by decide),
    (decode_flags_order 1).2.2.1 (by decide) (by decide)⟩

end GCF

namespace GCF

/-- C2: when the common descriptor read from the stream has a type code
other than 0 (Blob) and 1 (Texture), `read_composite_descriptor` returns
the raw common-plus-extension bytes unchanged as a bytes value, and
`write_composite_resource_descriptor` writes exactly those bytes back, so
an unregistered-type record round-trips byte-for-byte. -/
theorem unknown_type_passthrough (data : List Nat) (c : CommonResourceDescriptor)
    (hc : deserialize_common_resource_descriptor (data.take 16) = some c)
    (h0 : c.type ≠ 0) (h1 : c.type ≠ 1)
    (hlen : 16 + c.extension_size ≤ data.length) :
    read_composite_descriptor data =
      some (CompositeResourceDescriptor.raw (data.take (16 + c.extension_size))) ∧
    write_composite_resource_descriptor
      (CompositeResourceDescriptor.raw (data.take (16 + c.extension_size))) =
      some (data.take (16 + c.extension_size)) ∧
    (data.take (16 + c.extension_size)).length = 16 + c.extension_size := by
  refine ⟨?_, rfl, ?_⟩
  · simp only [read_composite_descriptor, hc, Option.some_bind, if_neg h0, if_neg h1,
      Option.some.injEq, CompositeResourceDescriptor.raw.injEq]
    exact (List.take_add data 16 c.extension_size).symm
  · rw [List.length_take]
    omega

/-- Witness for `unknown_type_passthrough`: a 19-byte record with type
code 2 and a 3-byte extension. -/
theorem unknown_type_passthrough_witness :
    read_composite_descriptor
        [2, 0, 0, 0, 0, 0, 0, 0, 0, 0, 0, 0, 3, 0, 0, 0, 9, 8, 7] =
      some (CompositeResourceDescriptor.raw
        [2, 0, 0, 0, 0, 0, 0, 0, 0, 0, 0, 0, 3, 0, 0, 0, 9, 8, 7]) ∧
    write_composite_resource_descriptor
        (CompositeResourceDescriptor.raw
          [2, 0, 0, 0, 0, 0, 0, 0, 0, 0, 0, 0, 3, 0, 0, 0, 9, 8, 7]) =
      some [2, 0, 0, 0, 0, 0, 0, 0, 0, 0, 0, 0, 3, 0, 0, 0, 9, 8, 7] := by
  have h := unknown_type_passthrough
    [2, 0, 0, 0, 0, 0, 0, 0, 0, 0, 0, 0, 3, 0, 0, 0, 9, 8, 7]
    { type := 2, format := 0, content_size := 0, extension_size := 3,
      supercompression_scheme := 0 }
    (by decide) (by decide) (by decide) (by decide)
  exact ⟨h.1.trans (by decide), (congrArg _ (by decide)).trans (h.2.1.trans (by decide))⟩

/-- C8 (amended): `deserialize_mip_level_descriptor` fails for every input
whose length differs from 24 — shorter inputs fail the explicit size
check, longer inputs fail `struct.unpack` — and succeeds exactly on
24-byte inputs, decoding the five fields from the first five little-endian
u32 words. -/
theorem mip_level_descriptor_exact_size :
    (∀ raw : List Nat, raw.length ≠ 24 → deserialize_mip_level_descriptor raw = none) ∧
    (∀ b0 b1 b2 b3 b4 b5 b6 b7 b8 b9 b10 b11 b12 b13 b14 b15
        b16 b17 b18 b19 b20 b21 b22 b23 : Nat,
      deserialize_mip_level_descriptor
          [b0, b1, b2, b3, b4, b5, b6, b7, b8, b9, b10, b11, b12, b13, b14, b15,
           b16, b17, b18, b19, b20, b21, b22, b23] =
        some { compressed_size := le32 b0 b1 b2 b3, uncompressed_size := le32 b4 b5 b6 b7,
               row_stride := le32 b8 b9 b10 b11, slice_stride := le32 b12 b13 b14 b15,
               layer_stride := le32 b16 b17 b18 b19 }) := by
  constructor
  · intro raw h
    by_cases hlt : raw.length < 24 <;>
      simp [deserialize_mip_level_descriptor, hlt, h]
  · intro b0 b1 b2 b3 b4 b5 b6 b7 b8 b9 b10 b11 b12 b13 b14 b15
      b16 b17 b18 b19 b20 b21 b22 b23
    rfl

/-- Witness for `mip_level_descriptor_exact_size`: a 23-byte input fails
and a 24-byte input decodes. -/
theorem mip_level_descriptor_exact_size_witness :
    deserialize_mip_level_descriptor (List.replicate 23 0) = none ∧
    deserialize_mip_level_descriptor
        [123, 0, 0, 0, 89, 1, 0, 0, 6, 0, 0, 0, 7, 0, 0, 0, 5, 0, 0, 0, 0, 0, 0, 0] =
      some { compressed_size := 123, uncompressed_size := 345, row_stride := 6,
             slice_stride := 7, layer_stride := 5 } := by
  refine ⟨mip_level_descriptor_exact_size.1 (List.replicate 23 0) (by decide), ?_⟩
  exact (mip_level_descriptor_exact_size.2 123 0 0 0 89 1 0 0 6 0 0 0 7 0 0 0 5 0 0 0
    0 0 0 0).trans (by decide)

/-- C8 counterexample: a 25-byte input is at least 24 bytes long, yet
`deserialize_mip_level_descriptor` fails on it (`struct.unpack("=6I", ...)`
requires exactly 24 bytes), contrary to the claim that every input of at
least 24 bytes succeeds. -/
theorem mip_level_descriptor_long_input_cex :
    24 ≤ (List.replicate 25 (0 : Nat)).length ∧
    deserialize_mip_level_descriptor (List.replicate 25 0) = none := by decide

end GCF

namespace GCF

/-- Helper: a nonempty list all of whose members equal `a` dedups to `[a]`. -/
theorem dedup_single (a : ImageFlags) (l : List ImageFlags) (ha : a ∈ l)
    (hall : ∀ x ∈ l, x = a) : l.dedup = [a] := by
  induction l with
  | nil => cases ha
  | cons b t ih =>
    have hb : b = a := hall b (List.mem_cons_self b t)
    subst hb
    rcases t with _ | ⟨c, t2⟩
    · simp
    · have hc : c = b := hall c (by simp)
      have hmem : b ∈ c :: t2 := by simp [hc]
      rw [List.dedup_cons_of_mem hmem]
      exact ih hmem fun x hx => hall x (List.mem_cons_of_mem _ hx)

/-- Helper: the size of the intersection of a flag set with the three
dimensionality members, counted per member. -/
theorem dim_filter_length (fset : List ImageFlags) :
    ([ImageFlags.image1D, ImageFlags.image2D, ImageFlags.image3D].filter
      fun f => decide (f ∈ fset)).length =
    (if ImageFlags.image1D ∈ fset then 1 else 0) +
      (if ImageFlags.image2D ∈ fset then 1 else 0) +
      (if ImageFlags.image3D ∈ fset then 1 else 0) := by
  by_cases h1 : ImageFlags.image1D ∈ fset <;>
    by_cases h2 : ImageFlags.image2D ∈ fset <;>
    by_cases h3 : ImageFlags.image3D ∈ fset <;>
    simp [List.filter, h1, h2, h3]

/-- C7 (amended): the image-API constructor `ImageResourceDescriptor.__init__`
rejects a flag set with zero or with more than one distinct dimensionality
member; with exactly one it succeeds, collapsing the height to 1 for 1D and
the depth to 1 unless 3D.  The texture-API `make_texture_resource_descriptor`
performs no such validation or collapsing: it stores every field verbatim. -/
theorem dimensionality_exclusivity (format size supercompression_scheme width height
    depth layer_count mip_level_count : Nat) (flags : List ImageFlags) :
    (flags = [] →
      imageResourceDescriptorInit format size supercompression_scheme width height depth
        layer_count mip_level_count flags = none) ∧
    (∀ f g, f ∈ flags → g ∈ flags → f ≠ g →
      imageResourceDescriptorInit format size supercompression_scheme width height depth
        layer_count mip_level_count flags = none) ∧
    (∀ f, f ∈ flags → (∀ g ∈ flags, g = f) →
      imageResourceDescriptorInit format size supercompression_scheme width height depth
        layer_count mip_level_count flags =
        some { format := format, size := size,
               supercompression_scheme := supercompression_scheme, width := width,
               height := if f = ImageFlags.image1D then 1 else height,
               depth := if f = ImageFlags.image3D then depth else 1,
               layer_count := layer_count, mip_level_count := mip_level_count,
               flags := [f] }) ∧
    (∀ fa ca sa bwa bha bda lca mla tga fla : Nat,
      make_texture_resource_descriptor fa ca sa bwa bha bda lca mla tga fla =
        { type := 1, format := fa, content_size := ca, extension_size := 16,
          supercompression_scheme := sa, base_width := bwa, base_height := bha,
          base_depth := bda, layer_count := lca, mip_level_count := mla, flags := fla,
          texture_group := tga }) := by
  refine ⟨?_, ?_, ?_, fun _ _ _ _ _ _ _ _ _ _ => rfl⟩
  · intro h
    subst h
    simp [imageResourceDescriptorInit]
  · intro f g hf hg hne
    have hf2 : f ∈ flags.dedup := List.mem_dedup.mpr hf
    have hg2 : g ∈ flags.dedup := List.mem_dedup.mpr hg
    simp only [imageResourceDescriptorInit]
    rw [if_pos]
    rw [dim_filter_length]
    rcases f <;> rcases g <;> simp_all <;> split_ifs <;> omega
  · intro f hf hall
    have hd : flags.dedup = [f] := dedup_single f flags hf hall
    simp only [imageResourceDescriptorInit, hd]
    rw [if_neg (by rw [dim_filter_length]; rcases f <;> simp)]
    rcases f <;> simp

/-- Witness for `dimensionality_exclusivity`: a 2D flag set keeps the
height and collapses the depth; `{1D, 2D}` and `{}` are rejected; the
texture-dict maker stores a zero flags word and height 7 verbatim. -/
theorem dimensionality_exclusivity_witness :
    imageResourceDescriptorInit 1 2 3 4 5 6 7 8 [ImageFlags.image2D] =
      some { format := 1, size := 2, supercompression_scheme := 3, width := 4,
             height := 5, depth := 1, layer_count := 7, mip_level_count := 8,
             flags := [ImageFlags.image2D] } ∧
    imageResourceDescriptorInit 1 2 3 4 5 6 7 8 [ImageFlags.image1D, ImageFlags.image2D] =
      none ∧
    imageResourceDescriptorInit 1 2 3 4 5 6 7 8 [] = none ∧
    make_texture_resource_descriptor 5 123 0 4 7 6 2 3 9 0 =
      { type := 1, format := 5, content_size := 123, extension_size := 16,
        supercompression_scheme := 0, base_width := 4, base_height := 7,
        base_depth := 6, layer_count := 2, mip_level_count := 3, flags := 0,
        texture_group := 9 } := by
  refine ⟨?_, ?_, ?_, ?_⟩
  · exact ((dimensionality_exclusivity 1 2 3 4 5 6 7 8 [ImageFlags.image2D]).2.2.1
      ImageFlags.image2D (by decide) (by decide)).trans (by decide)
  · exact (dimensionality_exclusivity 1 2 3 4 5 6 7 8
      [ImageFlags.image1D, ImageFlags.image2D]).2.1 ImageFlags.image1D ImageFlags.image2D
      (by decide) (by decide) (by decide)
  · exact (dimensionality_exclusivity 1 2 3 4 5 6 7 8 []).1 rfl
  · exact (dimensionality_exclusivity 1 2 3 4 5 6 7 8 []).2.2.2 5 123 0 4 7 6 2 3 9 0

/-- C7 counterexample: `make_texture_resource_descriptor` does not fail on
a flags word with zero dimensionality bits (it returns a descriptor with
`flags = 0`), and with the 1D flag it keeps `base_height = 7` instead of
collapsing it to 1. -/
theorem make_texture_descriptor_no_validation_cex :
    (make_texture_resource_descriptor 5 123 0 4 7 6 2 3 9 0).flags = 0 ∧
    (make_texture_resource_descriptor 5 123 0 4 7 6 2 3 9 TEXTURE_1D).base_height = 7 := by
  decide

end GCF
